import Mathlib

/-!
Verification of the frappe_ai tool-orchestration core against its specification.

The Python sources are shallowly embedded as Lean definitions:
  * `src/frappe_ai/api/mcp_client.py`            → the Tool Gateway Client model
  * `src/frappe_ai/api/tool_orchestrator.py`     → `format_openai_output_to_log`,
                                                   `run_tool_orchestration`
  * `src/frappe_ai/frappe_ai/doctype/sales_conversation/sales_conversation.py`
                                                 → `ingest_message`
  * `src/frappe_ai/integrations/sales_bot.py`    → `process_incoming_communication`,
                                                   `extract_latest_message_from_content`
External effects (HTTP transport, the LLM provider, the document store, the job
queue, `uuid.uuid4()`) are modelled as explicit parameters; Python exceptions
become `Except`/`Option` values; Python string truthiness (`if not s`) becomes
an emptiness test.
-/

/-- JSON-like values appearing in log-step `data` dictionaries and payloads. -/
inductive JVal where
  | str (s : String)
  | nat (n : Nat)
  | bool (b : Bool)
  | strList (xs : List String)
deriving DecidableEq, Repr

/-- One entry of the execution log: `{"step": ..., "status": ..., "data": {...}}`. -/
structure LogStep where
  step : String
  status : String
  data : List (String × JVal)
deriving DecidableEq, Repr

/-- Python truthiness of an optional string (`if item_dict.get('error'):`):
absent and empty are both falsy. -/
def pyTruthyOptStr : Option String → Bool
  | none => false
  | some s => s != ""

/-- The character class Python `str.strip()` removes. -/
def pyIsSpace (c : Char) : Bool :=
  c = ' ' ∨ c = '\t' ∨ c = '\n' ∨ c = '\r' ∨ c = '\x0b' ∨ c = '\x0c'

/-- Python `str.strip()`: drop leading and trailing whitespace (structural,
so concrete runs evaluate inside the kernel). -/
def pyStrip (s : String) : String :=
  ⟨((s.data.dropWhile pyIsSpace).reverse.dropWhile pyIsSpace).reverse⟩

/-- Python `s[:n]` on code points. -/
def pyTake (s : String) (n : Nat) : String :=
  ⟨s.data.take n⟩

/-- Python `str.startswith`. -/
def pyStartsWith (s p : String) : Bool :=
  p.data.isPrefixOf s.data

/-- Python `str.split('\\n')` (structural splitter on the newline character). -/
def pySplitNlAux : List Char → List Char → List (List Char)
  | [], acc => [acc.reverse]
  | c :: cs, acc =>
      if c = '\n' then acc.reverse :: pySplitNlAux cs []
      else pySplitNlAux cs (c :: acc)

/-- Python `str.split('\\n')`. -/
def pySplitNl (s : String) : List String :=
  (pySplitNlAux s.data []).map (fun cs => ⟨cs⟩)

/-! ## Tool Gateway Client (`mcp_client.py`) -/

/-- The `params` member of the JSON-RPC envelope, per method. -/
inductive McpParams where
  | callParams (name : String) (arguments : List (String × JVal))
  | listParams
  | readParams (uri : String)
deriving DecidableEq, Repr

/-- The JSON-RPC 2.0 envelope built by each client function. -/
structure McpPayload where
  jsonrpc : String
  method : String
  params : McpParams
  id : String
deriving DecidableEq, Repr

/-- An outgoing HTTP POST as the client hands it to the transport:
the session headers in force and the serialized body. -/
structure HttpRequest where
  headers : List (String × String)
  body : McpPayload
deriving DecidableEq, Repr

/-- The decoded JSON body of a gateway response; `id` is `response_json.get("id")`. -/
structure McpResponse where
  id : Option String
  result : JVal
deriving DecidableEq, Repr

/-- What the HTTP transport (the `requests` library plus the remote gateway)
can yield for one POST: a decoded 2xx JSON body, or one of the failures the
client catches (`requests.exceptions.Timeout` / `ConnectionError` /
`HTTPError`, or any other exception). -/
inductive TransportOutcome where
  | ok (resp : McpResponse)
  | timedOut
  | connRefused
  | httpStatus (status : Nat) (reason : String)
  | otherFailure (msg : String)
deriving DecidableEq, Repr

/-- The exception classes the embedded client code can raise, mirroring
`TimeoutError`, `ConnectionError`, `requests.exceptions.HTTPError`, arbitrary
re-raised exceptions, and the spec taxonomy entry `ProtocolError` (which the
Python code never raises; it is included so the spec claim can be stated). -/
inductive McpError where
  | timeoutError (msg : String)
  | connectionError (msg : String)
  | httpError (msg : String)
  | otherError (msg : String)
  | protocolError (msg : String)
deriving DecidableEq, Repr

/-- Whether an error is the spec taxonomy entry `ProtocolError`. -/
def McpError.isProtocolError : McpError → Bool
  | .protocolError _ => true
  | _ => false

/-- Whether a client call was rejected specifically with a `ProtocolError`. -/
def rejectedWithProtocolError : Except McpError McpResponse → Bool
  | .error e => e.isProtocolError
  | .ok _ => false

/-- `session.headers.clear()`: every default header is removed. -/
def headersClear (_h : List (String × String)) : List (String × String) := []

/-- `session.headers.update(upd)`: dictionary update (replace keys present in
`upd`, append the new pairs). -/
def headersUpdate (base upd : List (String × String)) : List (String × String) :=
  base.filter (fun p => upd.all (fun q => q.1 ≠ p.1)) ++ upd

/-- The only headers the client sets after clearing the session defaults. -/
def requiredMcpHeaders : List (String × String) :=
  [("Content-Type", "application/json"),
   ("Accept", "application/json, text/event-stream")]

/-- The session header set in force when the POST is issued:
`clear()` of the transport defaults followed by `update(...)` of the two
required headers (`_make_mcp_post_request`, mcp_client.py lines 13-22). -/
def sessionHeaders (defaults : List (String × String)) : List (String × String) :=
  headersUpdate (headersClear defaults) requiredMcpHeaders

/-- The fixed gateway endpoint (mcp_client.py line 46). -/
def mcp_url : String := "http://127.0.0.1:4000/mcp"

/-- The HTTP request actually sent for a payload: the cleared-and-updated
session headers plus the JSON-RPC body. -/
def sentRequest (defaults : List (String × String)) (payload : McpPayload) : HttpRequest :=
  ⟨sessionHeaders defaults, payload⟩

/-- `_make_mcp_post_request` (mcp_client.py lines 8-38): issue the POST and
map each transport failure to the exception the Python code raises. -/
def _make_mcp_post_request (transport : HttpRequest → TransportOutcome)
    (defaults : List (String × String)) (payload : McpPayload) :
    Except McpError McpResponse :=
  match transport (sentRequest defaults payload) with
  | .ok r => .ok r
  | .timedOut =>
      .error (.timeoutError ("Request to MCP server at " ++ mcp_url ++ " timed out."))
  | .connRefused =>
      .error (.connectionError ("Connection refused by MCP server at " ++ mcp_url ++ ". Is it running?"))
  | .httpStatus st reason =>
      .error (.httpError (toString st ++ " Client Error: " ++ reason ++ " for url: " ++ mcp_url))
  | .otherFailure m => .error (.otherError m)

/-- The message of the id-mismatch rejection (mcp_client.py lines 62, 87, 113). -/
def mismatchIdMsg : String := "Error: Received response with a mismatched ID."

/-- The JSON-RPC envelope `call_mcp_tool` builds (mcp_client.py lines 51-56);
`request_id` stands for the freshly generated `str(uuid.uuid4())`. -/
def callToolPayload (request_id tool_name : String)
    (arguments : List (String × JVal)) : McpPayload :=
  ⟨"2.0", "tools/call", .callParams tool_name arguments, request_id⟩

/-- The JSON-RPC envelope `list_mcp_tools` builds (mcp_client.py lines 77-82). -/
def listToolsPayload (request_id : String) : McpPayload :=
  ⟨"2.0", "tools/list", .listParams, request_id⟩

/-- The JSON-RPC envelope `read_mcp_resource` builds (mcp_client.py lines 102-107). -/
def readResourcePayload (request_id uri : String) : McpPayload :=
  ⟨"2.0", "resources/read", .readParams uri, request_id⟩

/-- `call_mcp_tool` (mcp_client.py lines 40-64): build the envelope, POST it,
then reject the response when `response_json.get("id") != request_id` —
note the Python raises `ConnectionError`, not a protocol-error class. -/
def call_mcp_tool (transport : HttpRequest → TransportOutcome)
    (defaults : List (String × String)) (request_id tool_name : String)
    (arguments : List (String × JVal)) : Except McpError McpResponse :=
  match _make_mcp_post_request transport defaults (callToolPayload request_id tool_name arguments) with
  | .error e => .error e
  | .ok resp =>
      if resp.id ≠ some request_id then .error (.connectionError mismatchIdMsg)
      else .ok resp

/-- `list_mcp_tools` (mcp_client.py lines 66-89). -/
def list_mcp_tools (transport : HttpRequest → TransportOutcome)
    (defaults : List (String × String)) (request_id : String) :
    Except McpError McpResponse :=
  match _make_mcp_post_request transport defaults (listToolsPayload request_id) with
  | .error e => .error e
  | .ok resp =>
      if resp.id ≠ some request_id then .error (.connectionError mismatchIdMsg)
      else .ok resp

/-- `read_mcp_resource` (mcp_client.py lines 91-115). -/
def read_mcp_resource (transport : HttpRequest → TransportOutcome)
    (defaults : List (String × String)) (request_id uri : String) :
    Except McpError McpResponse :=
  match _make_mcp_post_request transport defaults (readResourcePayload request_id uri) with
  | .error e => .error e
  | .ok resp =>
      if resp.id ≠ some request_id then .error (.connectionError mismatchIdMsg)
      else .ok resp

/-- A gateway that always answers with a response whose `id` is not the one
just generated. -/
def mismatchTransport : HttpRequest → TransportOutcome :=
  fun _ => .ok ⟨some "some-other-id", .str "pong"⟩

/-! ## Managed-transport trace model (`tool_orchestrator.py`) -/

/-- One content part of an assistant `message` output item
(`content_part.get('type')`, `content_part.get('text', '')`). -/
structure ContentPart where
  ptype : String
  text : String
deriving DecidableEq, Repr

/-- The value of an `mcp_call` item `output` field: a string, a list
(with element count and `len(str(output))`), or a dict likewise. -/
inductive OutVal where
  | ostr (s : String)
  | olist (elems strLen : Nat)
  | odict (elems strLen : Nat)
deriving DecidableEq, Repr

/-- Python truthiness of an `output` value. -/
def OutVal.pyTruthy : OutVal → Bool
  | .ostr s => s != ""
  | .olist n _ => n ≠ 0
  | .odict n _ => n ≠ 0

/-- One item of `response_obj.output` as `format_openai_output_to_log` reads
its `model_dump(exclude_unset=True)` dictionary; `Option` marks fields that
may be unset, the `error` field is shared by all item kinds. -/
inductive OutputItem where
  | mcpListTools (serverLabel : String) (tools : List (Option String)) (error : Option String)
  | mcpCall (name : Option String) (arguments : List (String × JVal))
      (output : Option OutVal) (error : Option String)
  | message (role : String) (content : List ContentPart) (error : Option String)
  | otherItem (ty : Option String) (error : Option String)
deriving DecidableEq, Repr

/-- Python `str.replace('_', ' ')`. -/
def pyReplaceUnderscore (s : String) : String :=
  s.map (fun c => if c = '_' then ' ' else c)

/-- Python `str.title()` on a character list: upper-case an alphabetic
character that follows a non-alphabetic one, lower-case the rest. -/
def pyTitleAux : List Char → Bool → List Char
  | [], _ => []
  | c :: cs, prevAlpha =>
      (if c.isAlpha then (if prevAlpha then c.toLower else c.toUpper) else c)
        :: pyTitleAux cs c.isAlpha

/-- Python `str.title()`. -/
def pyTitle (s : String) : String :=
  ⟨pyTitleAux s.data false⟩

/-- The `data['error']` entry added for any item whose `error` field is truthy
(tool_orchestrator.py lines 144-146). -/
def errorData (error : Option String) : List (String × JVal) :=
  if pyTruthyOptStr error then [("error", .str (error.getD ""))] else []

/-- The concatenated `output_text` parts of an assistant message
(tool_orchestrator.py lines 176-179). -/
def messageText (content : List ContentPart) : String :=
  String.join (content.filterMap
    (fun p => if p.ptype = "output_text" then some p.text else none))

/-- One iteration of the `for item in response_obj.output` loop of
`format_openai_output_to_log` (tool_orchestrator.py lines 138-195): the log
step appended for this item (`none` on `continue`) and the text this item adds
to `final_response_text`.  NOTE: the separator the source appends is the
four-character literal text backslash-n-backslash-n (Python `"\\n\\n"`),
reproduced here exactly. -/
def formatItem : OutputItem → Option LogStep × String
  | .mcpListTools serverLabel tools error =>
      let status := if pyTruthyOptStr error then "error" else "success"
      let data := errorData error ++
        [("tools_found", .nat tools.length),
         ("tool_names", .strList (tools.map (fun t => t.getD "unknown")))]
      (some ⟨"List Tools (" ++ serverLabel ++ ")", status, data⟩, "")
  | .mcpCall name arguments output error =>
      let status := if pyTruthyOptStr error then "error" else "success"
      let tool_name := name.getD "unknown_tool"
      let argData :=
        if arguments.isEmpty then []
        else [("arguments_provided", .bool true), ("arg_count", .nat arguments.length)]
      let outData :=
        match output with
        | none => []
        | some v =>
            if v.pyTruthy then
              match v with
              | .ostr s => [("output_received", .bool true), ("output_size", .nat s.length)]
              | .olist _ strLen =>
                  [("output_received", .bool true), ("output_type", .str "list"),
                   ("output_size", .nat strLen)]
              | .odict _ strLen =>
                  [("output_received", .bool true), ("output_type", .str "dict"),
                   ("output_size", .nat strLen)]
            else []
      let data := errorData error ++ [("tool_name", .str tool_name)] ++ argData ++ outData
      (some ⟨"Execute Tool: " ++ tool_name, status, data⟩, "")
  | .message role content error =>
      let status := if pyTruthyOptStr error then "error" else "success"
      if role = "assistant" ∧ ¬ content.isEmpty then
        let text_content := messageText content
        let piece := if pyStrip text_content ≠ "" then text_content ++ "\\n\\n" else ""
        if pyStrip text_content = "" then (none, piece)
        else
          let preview :=
            if text_content.length > 100 then pyTake text_content 100 ++ "..." else text_content
          (some ⟨"Assistant Message", status,
                 errorData error ++
                 [("message_length", .nat text_content.length),
                  ("has_content", .bool true),
                  ("preview", .str preview)]⟩, piece)
      else (none, "")
  | .otherItem ty error =>
      let status := if pyTruthyOptStr error then "error" else "success"
      (some ⟨pyTitle (pyReplaceUnderscore (ty.getD "Unknown Step")), status, errorData error⟩, "")

/-- `format_openai_output_to_log` (tool_orchestrator.py lines 130-197):
fold the per-item contributions in trace order; the final response text is
stripped at the end (`final_response_text.strip()`). -/
def format_openai_output_to_log (output : List OutputItem) : List LogStep × String :=
  if output.isEmpty then ([], "")
  else
    ((output.map formatItem).filterMap Prod.fst,
     pyStrip (String.join ((output.map formatItem).map Prod.snd)))

/-- `OrchestrationResult`: the dictionary `run_tool_orchestration` returns. -/
structure OrchestrationResult where
  log : List LogStep
  final_response : String
  error : Bool
deriving DecidableEq, Repr

/-- The info step `openai_responses_call` appends to the caller-supplied log
container before issuing the LLM call (tool_orchestrator.py lines 103-111). -/
def llmCallLogStep (model_id : String) (message_count : Nat) : LogStep :=
  ⟨"LLM Call", "info", [("model", .str model_id), ("message_count", .nat message_count)]⟩

/-- The normalized log of the managed-transport run before the completion
summary: the initial LLM-call step plus the trace-derived steps
(`log = initial_log + parsed_log`, tool_orchestrator.py line 215). -/
def normalizedLog (output : List OutputItem) : List LogStep :=
  [llmCallLogStep "gpt-4.1" 1] ++ (format_openai_output_to_log output).1

/-- The default substituted when the provider returned no assistant text and
no error (tool_orchestrator.py line 233). -/
def defaultFinalResponse : String :=
  "The process completed, but no final answer was generated."

/-- `run_tool_orchestration` (tool_orchestrator.py lines 199-246).  Its single
external input is modelled as `Except`: `Except.ok output` is a completed
`openai_responses_call` with trace `output`; `Except.error e` is an unexpected
exception anywhere in the `try` block, with message `str(e)`. -/
def run_tool_orchestration (outcome : Except String (List OutputItem)) : OrchestrationResult :=
  match outcome with
  | .error e =>
      ⟨[⟨"Orchestration Failed", "error", [("error", .str e)]⟩],
       "**Orchestration Failed**\n\nAn unhandled error occurred: " ++ e,
       true⟩
  | .ok output =>
      let final_response := (format_openai_output_to_log output).2
      let log := normalizedLog output
      let has_error := log.any (fun s => s.status == "error")
      let tool_calls := (log.filter (fun s => pyStartsWith s.step "Execute Tool:")).length
      let completed : LogStep :=
        ⟨"Orchestration Complete",
         if has_error then "completed_with_errors" else "success",
         [("total_steps", .nat log.length), ("tool_calls", .nat tool_calls),
          ("final_response", .str final_response)]⟩
      let final_response2 :=
        if final_response = "" ∧ has_error = false then defaultFinalResponse
        else final_response
      ⟨log ++ [completed], final_response2, has_error⟩

/-! ## Conversation state store (`sales_conversation.py`) -/

/-- A `Sales Conversation` document as `ingest_message` reads and writes it. -/
structure SalesConversation where
  name : String
  channel : String
  customer_identifier : String
  status : String
deriving DecidableEq, Repr

/-- A queued background job: `frappe.enqueue(process_message, docname, user_message)`. -/
structure QueueJob where
  docname : String
  user_message : String
deriving DecidableEq, Repr

/-- The external state `ingest_message` touches: the stored conversations and
the background job queue. -/
structure SalesState where
  conversations : List SalesConversation
  queue : List QueueJob
deriving DecidableEq, Repr

/-- `frappe.db.exists("Sales Conversation", {customer_identifier, channel,
status: "Ongoing"})` (sales_conversation.py lines 142-144): the name of a
stored conversation matching all three filters, if any. -/
def findOngoingName (convs : List SalesConversation)
    (channel customer_identifier : String) : Option String :=
  (convs.find? (fun c =>
      c.customer_identifier == customer_identifier &&
      c.channel == channel && c.status == "Ongoing")).map (fun c => c.name)

/-- Modelled from the spec: the `Sales Conversation` DocType definition (its
JSON schema, which fixes the default `status` of a freshly inserted document)
is not under `src/`; the spec's state-store contract
(`findOngoing`/`create`) implies a new conversation starts in the state that
`findOngoing` matches, i.e. `"Ongoing"`. -/
def salesConversationDefaultStatus : String := "Ongoing"

/-- The value `ingest_message` returns on success (sales_conversation.py line 166). -/
structure IngestResult where
  status : String
  message : String
  conversation_id : String
deriving DecidableEq, Repr

/-- `ingest_message` (sales_conversation.py lines 136-166).  `newName` stands
for the name the framework assigns to a freshly inserted document. -/
def ingest_message (st : SalesState) (newName channel customer_identifier user_message : String) :
    SalesState × IngestResult :=
  match findOngoingName st.conversations channel customer_identifier with
  | some doc_name =>
      ({ st with queue := st.queue ++ [⟨doc_name, user_message⟩] },
       ⟨"success", "Message enqueued for processing.", doc_name⟩)
  | none =>
      let doc : SalesConversation :=
        ⟨newName, channel, customer_identifier, salesConversationDefaultStatus⟩
      ({ conversations := st.conversations ++ [doc],
         queue := st.queue ++ [⟨newName, user_message⟩] },
       ⟨"success", "Message enqueued for processing.", newName⟩)

/-! ## Sales bot hook (`sales_bot.py`) -/

/-- One `div.message-entry` of the parsed conversation HTML, as BeautifulSoup
exposes it to `extract_latest_message_from_content`: the text of the first
`<strong>` child (the sender), the text of the first inner `<div>` (the
message body), and the entry's full text. -/
structure MessageEntry where
  senderStrong : Option String
  contentDiv : Option String
  fullText : String
deriving DecidableEq, Repr

/-- The parsed HTML content of a Communication: its `message-entry` divs and
its plain text (`soup.get_text()`). -/
structure CommContent where
  entries : List MessageEntry
  plainText : String
deriving DecidableEq, Repr

/-- `re.sub(r'[→←]', '', s)`. -/
def stripArrows (s : String) : String :=
  ⟨s.data.filter (fun c => c ≠ '→' ∧ c ≠ '←')⟩

/-- `extract_latest_message_from_content` (sales_bot.py lines 115-183) on
successfully parsed content: take the last message entry, flag it as a bot
message when its `<strong>` sender text strips to `"You"`, and extract the
message text from the inner `<div>` or, failing that, from the entry's full
text; with no entries fall back to the plain text. -/
def extract_latest_message_from_content (c : CommContent) : String × Bool :=
  match c.entries.getLast? with
  | some latest =>
      let is_bot_message :=
        match latest.senderStrong with
        | some s => pyStrip s == "You"
        | none => false
      match latest.contentDiv with
      | some t => (pyStrip t, is_bot_message)
      | none =>
          let full_text := pyStrip (stripArrows (pyStrip latest.fullText))
          let lines := pySplitNl full_text
          if lines.length > 1 then (pyStrip ((lines.getLast?).getD ""), is_bot_message)
          else (full_text, is_bot_message)
  | none => (pyStrip c.plainText, false)

/-- A `Communication` document as the hook reads it; unset string fields are
`""` (Python-falsy), absent content is `none`. -/
structure Communication where
  sent_or_received : String
  communication_medium : String
  reference_doctype : String
  sender_phone : String
  phone_no : String
  instagram : String
  sender : String
  content : Option CommContent
deriving DecidableEq, Repr

/-- Python `a or b` on strings. -/
def pyOrStr (a b : String) : String := if a = "" then b else a

/-- The supported communication mediums (sales_bot.py line 22). -/
def supported_channels : List String := ["WhatsApp", "Instagram", "SMS", "Phone Call"]

/-- The per-medium customer identifier (sales_bot.py lines 37-42 and 66-71). -/
def identifierFor (doc : Communication) : String :=
  if doc.communication_medium = "WhatsApp" then pyOrStr doc.sender_phone doc.phone_no
  else if doc.communication_medium = "Instagram" then doc.instagram
  else pyOrStr (pyOrStr doc.sender_phone doc.phone_no) doc.sender

/-- The content-processing branch shared by the `Contact` and unlinked cases
(sales_bot.py lines 48-61 and 75-87): extract the latest message, skip when it
is a bot message, record `None` when the document has no content. -/
def extractedUserMessage (content : Option CommContent) : Option (Option String) :=
  match content with
  | some c =>
      let ext := extract_latest_message_from_content c
      if ext.2 then none else some (some ext.1)
  | none => some none

/-- `process_incoming_communication` (sales_bot.py lines 4-112): `none` when
the hook returns without action, `some (channel, customer_identifier,
user_message)` when it reaches the `ingest_message` call with those
arguments. -/
def process_incoming_communication (doc : Communication) :
    Option (String × String × String) :=
  if doc.sent_or_received ≠ "Received" then none
  else if ¬ supported_channels.contains doc.communication_medium then none
  else if doc.reference_doctype = "Sales Conversation" then none
  else if doc.reference_doctype = "Contact" ∨ doc.reference_doctype = "" then
    let customer_identifier := identifierFor doc
    match extractedUserMessage doc.content with
    | none => none
    | some user_message =>
        match user_message with
        | none => none
        | some m =>
            if customer_identifier = "" ∨ m = "" then none
            else some (doc.communication_medium, customer_identifier, m)
  else none

/-! ## Multi-turn direct loop (spec section 4.3(a)) -/

/-- Modelled from the spec: a `ToolCallRequest` embedded in a direct-transport
assistant turn.  The multi-turn direct loop itself is described by the spec as
one of the repository's orchestration variants, but no implementation of it is
present under `src/` (only the managed-transport orchestrator remains). -/
structure ToolCallRequest where
  id : String
  tool_name : String
  arguments : List (String × JVal)
deriving DecidableEq, Repr

/-- Modelled from the spec: one assistant turn of the direct transport — text
plus zero or more embedded tool-call requests. -/
structure AssistantTurn where
  text : String
  tool_calls : List ToolCallRequest
deriving DecidableEq, Repr

/-- Modelled from the spec: a conversation message of the direct loop. -/
inductive DirectMsg where
  | system (content : String)
  | user (content : String)
  | assistant (turn : AssistantTurn)
  | tool (call_id content : String)
deriving DecidableEq, Repr

/-- Modelled from the spec: the turn budget of the direct loop (default N=10). -/
def directMaxTurns : Nat := 10

/-- Modelled from the spec: the explanatory final response of the designed
turn-budget circuit breaker. -/
def turnBudgetExceededMsg : String :=
  "Maximum number of turns reached without a final response from the model."

/-- Modelled from the spec: the explanatory final response of a failed tool
discovery (fatal precondition, spec section 4.3(a) step 1). -/
def discoveryFailedMsg : String :=
  "Tool discovery returned no tools; the agent cannot act."

/-- Modelled from the spec: the bounded multi-turn direct loop (spec section
4.3(a) steps 3-4).  `llm` is the direct-transport completion call, `gateway`
executes one tool call and returns the serialized result payload (tool
failures are already encoded in the payload, per P2).  Returns the result and
the number of LLM calls performed. -/
def direct_loop (llm : List DirectMsg → AssistantTurn) (gateway : ToolCallRequest → String) :
    Nat → List DirectMsg → List LogStep → OrchestrationResult × Nat
  | 0, _, log =>
      (⟨log ++ [⟨"Turn Budget Exceeded", "error", []⟩], turnBudgetExceededMsg, true⟩, 0)
  | fuel + 1, conversation, log =>
      let turn := llm conversation
      let conversation := conversation ++ [DirectMsg.assistant turn]
      if turn.tool_calls.isEmpty then
        (⟨log ++ [⟨"Generate Response", "success", []⟩], turn.text, false⟩, 1)
      else
        let conversation := conversation ++
          turn.tool_calls.map (fun c => DirectMsg.tool c.id (gateway c))
        let next := direct_loop llm gateway fuel conversation
          (log ++ turn.tool_calls.map (fun c => ⟨"Execute Tool: " ++ c.tool_name, "success", []⟩))
        (next.1, next.2 + 1)

/-- Modelled from the spec: one full direct-loop run (spec section 4.3(a)):
fail fast when discovery yields no tools, otherwise seed the conversation and
iterate up to `directMaxTurns` turns. -/
def run_direct_orchestration (llm : List DirectMsg → AssistantTurn)
    (gateway : ToolCallRequest → String) (tools : List String) (user_query : String) :
    OrchestrationResult × Nat :=
  if tools.isEmpty then
    (⟨[⟨"List Tools", "error", []⟩], discoveryFailedMsg, true⟩, 0)
  else
    direct_loop llm gateway directMaxTurns
      [DirectMsg.system "agent policy", DirectMsg.user user_query]
      [⟨"List Tools", "success", [("tools_found", .nat tools.length)]⟩]

/-! ## Concrete inputs used by counterexamples and witnesses -/

/-- A managed-transport trace: one successful `get_weather` tool call followed
by one assistant message, no error items (E2E scenario C shape). -/
def weatherTrace : List OutputItem :=
  [.mcpCall (some "get_weather") [("city", .str "Paris")] (some (.odict 1 12)) none,
   .message "assistant" [⟨"output_text", "Paris is sunny"⟩] none]

/-- A managed-transport trace containing a failed tool call. -/
def failingTrace : List OutputItem :=
  [.mcpCall (some "get_weather") [("city", .str "Paris")] none (some "tool exploded")]

/-- A pathological direct-transport LLM that requests a tool call on every turn. -/
def pathoLlm : List DirectMsg → AssistantTurn :=
  fun _ => ⟨"", [⟨"call-1", "ping", []⟩]⟩

/-- A trivial tool gateway used by witnesses. -/
def constGateway : ToolCallRequest → String := fun _ => "ok"

/-- A Communication from the bot itself: latest entry sent by "You". -/
def botEchoDoc : Communication :=
  { sent_or_received := "Received"
    communication_medium := "WhatsApp"
    reference_doctype := "Contact"
    sender_phone := "+491701234567"
    phone_no := ""
    instagram := ""
    sender := ""
    content := some ⟨[⟨some "You", some "Hello, how can I help?", "You 10:00 Hello, how can I help?"⟩],
                     "Hello, how can I help?"⟩ }

/-! ## Theorems -/

/-- C3 counterexample: with a gateway whose response id differs from the fresh
request id, `call_mcp_tool` rejects the response — but with a
`ConnectionError`, not the `ProtocolError` the claim states, so the claim as
written is false on the code. -/
theorem c3_counterexample :
    call_mcp_tool mismatchTransport [] "req-1" "ping" [] =
      Except.error (McpError.connectionError mismatchIdMsg) ∧
    rejectedWithProtocolError (call_mcp_tool mismatchTransport [] "req-1" "ping" []) = false := by
  constructor <;> rfl

/-- C3 (amended): for each of `call_mcp_tool`, `list_mcp_tools` and
`read_mcp_resource`, a 2xx gateway response whose id differs from the freshly
generated request id is rejected with an error (raised as a `ConnectionError`
carrying the mismatch message) and is never returned as a successful result. -/
theorem c3_id_mismatch_rejected (transport : HttpRequest → TransportOutcome)
    (defaults : List (String × String)) (request_id tool_name uri : String)
    (arguments : List (String × JVal)) (resp : McpResponse)
    (hid : resp.id ≠ some request_id) :
    (transport (sentRequest defaults (callToolPayload request_id tool_name arguments)) =
        TransportOutcome.ok resp →
      call_mcp_tool transport defaults request_id tool_name arguments =
        Except.error (McpError.connectionError mismatchIdMsg)) ∧
    (transport (sentRequest defaults (listToolsPayload request_id)) = TransportOutcome.ok resp →
      list_mcp_tools transport defaults request_id =
        Except.error (McpError.connectionError mismatchIdMsg)) ∧
    (transport (sentRequest defaults (readResourcePayload request_id uri)) = TransportOutcome.ok resp →
      read_mcp_resource transport defaults request_id uri =
        Except.error (McpError.connectionError mismatchIdMsg)) := by
  refine ⟨fun h => ?_, fun h => ?_, fun h => ?_⟩ <;>
    simp [call_mcp_tool, list_mcp_tools, read_mcp_resource, _make_mcp_post_request, h, hid]

/-- C3 amended-claim witness at a concrete mismatching gateway. -/
theorem c3_id_mismatch_rejected_witness :
    (⟨some "some-other-id", JVal.str "pong"⟩ : McpResponse).id ≠ some "req-1" ∧
    mismatchTransport (sentRequest [] (listToolsPayload "req-1")) =
      TransportOutcome.ok ⟨some "some-other-id", JVal.str "pong"⟩ ∧
    list_mcp_tools mismatchTransport [] "req-1" =
      Except.error (McpError.connectionError mismatchIdMsg) := by
  refine ⟨by decide, rfl, ?_⟩
  exact (c3_id_mismatch_rejected mismatchTransport [] "req-1" "ping" "schema://User" []
    ⟨some "some-other-id", JVal.str "pong"⟩ (by decide)).2.1 rfl

/-- C8: whatever default headers the transport session starts with, every
request the client sends carries exactly the two required headers
(`Content-Type: application/json`, `Accept: application/json,
text/event-stream`), and its body is the JSON-RPC 2.0 envelope
`{jsonrpc:"2.0", method, params, id}` with the per-call generated id, for all
three client operations. -/
theorem c8_minimal_headers_and_envelope (defaults : List (String × String))
    (request_id tool_name uri : String) (arguments : List (String × JVal)) :
    (sentRequest defaults (callToolPayload request_id tool_name arguments)).headers =
      [("Content-Type", "application/json"),
       ("Accept", "application/json, text/event-stream")] ∧
    (sentRequest defaults (callToolPayload request_id tool_name arguments)).body =
      ⟨"2.0", "tools/call", McpParams.callParams tool_name arguments, request_id⟩ ∧
    (sentRequest defaults (listToolsPayload request_id)).headers =
      [("Content-Type", "application/json"),
       ("Accept", "application/json, text/event-stream")] ∧
    (sentRequest defaults (listToolsPayload request_id)).body =
      ⟨"2.0", "tools/list", McpParams.listParams, request_id⟩ ∧
    (sentRequest defaults (readResourcePayload request_id uri)).headers =
      [("Content-Type", "application/json"),
       ("Accept", "application/json, text/event-stream")] ∧
    (sentRequest defaults (readResourcePayload request_id uri)).body =
      ⟨"2.0", "resources/read", McpParams.readParams uri, request_id⟩ := by
  refine ⟨?_, rfl, ?_, rfl, ?_, rfl⟩ <;>
    simp [sentRequest, sessionHeaders, headersClear, headersUpdate, requiredMcpHeaders]

/-- C1: on an unexpected exception with message `m` anywhere in the run,
`run_tool_orchestration` still returns a well-formed result with
`error = true`, a log containing a step with status `error` carrying the
exception message, and a non-empty explanatory `final_response` — the
embedding is a total function, so no exception escapes to the caller. -/
theorem c1_exception_containment (m : String) :
    (run_tool_orchestration (Except.error m)).error = true ∧
    (∃ s ∈ (run_tool_orchestration (Except.error m)).log,
        s.status = "error" ∧ ("error", JVal.str m) ∈ s.data) ∧
    (run_tool_orchestration (Except.error m)).final_response ≠ "" := by
  refine ⟨rfl, ⟨⟨"Orchestration Failed", "error", [("error", .str m)]⟩,
    by simp [run_tool_orchestration], rfl, by simp⟩, ?_⟩
  intro h
  have hlen := congrArg String.length h
  simp [run_tool_orchestration, String.length_append] at hlen
  exact absurd hlen.1 (by decide)

/-- C4: in the non-exception path, the returned `error` flag is true exactly
when some step of the normalized log (the initial LLM-call step plus the
trace-derived steps) has status `error`. -/
theorem c4_error_iff_log_error (output : List OutputItem) :
    (run_tool_orchestration (Except.ok output)).error = true ↔
      ∃ s ∈ normalizedLog output, s.status = "error" := by
  simp [run_tool_orchestration, List.any_eq_true]

/-- C5: when the normalized trace yields an empty final response text and no
step of the normalized log has status `error`, the run substitutes the fixed
non-empty default message for the empty final response. -/
theorem c5_default_final_response (output : List OutputItem)
    (hempty : (format_openai_output_to_log output).2 = "")
    (hnoerr : ∀ s ∈ normalizedLog output, s.status ≠ "error") :
    (run_tool_orchestration (Except.ok output)).final_response = defaultFinalResponse ∧
    defaultFinalResponse ≠ "" := by
  have hany : (normalizedLog output).any (fun s => s.status == "error") = false := by
    simp only [List.any_eq_false]
    intro s hs
    simpa using hnoerr s hs
  refine ⟨?_, by decide⟩
  simp [run_tool_orchestration, hany, hempty]

/-- C5 witness: the empty trace yields an empty final response and an
error-free log, and the default message is substituted. -/
theorem c5_default_final_response_witness :
    (format_openai_output_to_log []).2 = "" ∧
    (∀ s ∈ normalizedLog [], s.status ≠ "error") ∧
    (run_tool_orchestration (Except.ok [])).final_response = defaultFinalResponse :=
  ⟨rfl, by decide, (c5_default_final_response [] rfl (by decide)).1⟩

/-- C6: evaluating the code on a trace that ends with exactly one assistant
message "Paris is sunny" (no error items) after a successful `get_weather`
call.  The run reports no error and logs the `Execute Tool: get_weather`
success step, but `final_response` is NOT exactly the assistant text: the
source appends the literal four-character text backslash-n-backslash-n
(Python `"\\n\\n"`, tool_orchestrator.py line 182) after each message, and the
trailing `.strip()` cannot remove it because backslash and `n` are not
whitespace — while the same file builds the exception-path response with real
newlines, showing the separator was meant to be whitespace. -/
theorem c6_weather_trace_result :
    (run_tool_orchestration (Except.ok weatherTrace)).error = false ∧
    (run_tool_orchestration (Except.ok weatherTrace)).final_response = "Paris is sunny\\n\\n" ∧
    (run_tool_orchestration (Except.ok weatherTrace)).final_response ≠ "Paris is sunny" ∧
    ∃ s ∈ (run_tool_orchestration (Except.ok weatherTrace)).log,
      s.step = "Execute Tool: get_weather" ∧ s.status = "success" := by
  refine ⟨by decide, by decide, by decide, ?_⟩
  decide

/-- C7 counterexample: on a trace containing a failed tool call, the run
appends the completion summary with status `completed_with_errors`, which is
outside the claimed enumeration `{running, success, error, info}`. -/
theorem c7_status_outside_enum :
    ∃ s ∈ (run_tool_orchestration (Except.ok failingTrace)).log,
      s.status ∉ (["running", "success", "error", "info"] : List String) := by
  decide

/-- Every log step produced by one trace item carries status `success` or
`error` (tool_orchestrator.py lines 141-146). -/
theorem formatItem_status_cases (item : OutputItem) (s : LogStep)
    (h : (formatItem item).1 = some s) :
    s.status = "success" ∨ s.status = "error" := by
  cases item with
  | mcpListTools serverLabel tools error =>
      simp only [formatItem, Option.some.injEq] at h
      subst h
      by_cases he : pyTruthyOptStr error = true <;> simp [he]
  | mcpCall name arguments output error =>
      simp only [formatItem, Option.some.injEq] at h
      subst h
      by_cases he : pyTruthyOptStr error = true <;> simp [he]
  | message role content error =>
      simp only [formatItem] at h
      split at h
      · split at h
        · simp at h
        · simp only [Option.some.injEq] at h
          subst h
          by_cases he : pyTruthyOptStr error = true <;> simp [he]
      · simp at h
  | otherItem ty error =>
      simp only [formatItem, Option.some.injEq] at h
      subst h
      by_cases he : pyTruthyOptStr error = true <;> simp [he]

/-- C7 (amended): every log step of every orchestration run has a status
drawn from `{running, success, error, info, completed_with_errors}` — the
code adds the summary status `completed_with_errors` to the spec's
enumeration. -/
theorem c7_amended_status_enum (outcome : Except String (List OutputItem)) (s : LogStep)
    (h : s ∈ (run_tool_orchestration outcome).log) :
    s.status ∈ ["running", "success", "error", "info", "completed_with_errors"] := by
  cases outcome with
  | error e =>
      simp [run_tool_orchestration] at h
      subst h
      simp
  | ok output =>
      simp only [run_tool_orchestration, List.mem_append, List.mem_singleton] at h
      rcases h with h | rfl
      · simp only [normalizedLog, llmCallLogStep, List.cons_append, List.nil_append,
          List.mem_cons] at h
        rcases h with rfl | h
        · simp
        · have hmem : ∃ item ∈ output, (formatItem item).1 = some s := by
            by_cases hout : output.isEmpty
            · simp [format_openai_output_to_log, hout] at h
            · simp only [format_openai_output_to_log, hout, if_neg, Bool.false_eq_true,
                ite_false, List.mem_filterMap, List.mem_map] at h
              rcases h with ⟨p, ⟨item, hitem, rfl⟩, hp⟩
              exact ⟨item, hitem, hp⟩
          rcases hmem with ⟨item, _, hitem⟩
          rcases formatItem_status_cases item s hitem with hs | hs <;> simp [hs]
      · by_cases he :
          ((normalizedLog output).any fun t => t.status == "error") = true <;> simp [he]

/-- C7 amended-claim witness: the exception-path log step has a status in the
amended enumeration. -/
theorem c7_amended_status_enum_witness :
    (⟨"Orchestration Failed", "error", [("error", JVal.str "boom")]⟩ : LogStep) ∈
      (run_tool_orchestration (Except.error "boom")).log ∧
    (⟨"Orchestration Failed", "error", [("error", JVal.str "boom")]⟩ : LogStep).status ∈
      ["running", "success", "error", "info", "completed_with_errors"] :=
  ⟨by decide, c7_amended_status_enum (Except.error "boom") _ (by decide)⟩

/-- C9: `ingest_message` routes the message to the existing `Ongoing`
conversation for the (channel, customer) key when one exists — creating
nothing — and otherwise creates exactly one new conversation; in both cases it
enqueues processing of the message for exactly that conversation and returns
its identifier. -/
theorem c9_ingest_message_routing (st : SalesState)
    (newName channel customer_identifier user_message : String) :
    match findOngoingName st.conversations channel customer_identifier with
    | some n =>
        (ingest_message st newName channel customer_identifier user_message).1.conversations =
          st.conversations ∧
        (ingest_message st newName channel customer_identifier user_message).1.queue =
          st.queue ++ [⟨n, user_message⟩] ∧
        (ingest_message st newName channel customer_identifier user_message).2.conversation_id = n
    | none =>
        (ingest_message st newName channel customer_identifier user_message).1.conversations =
          st.conversations ++
            [⟨newName, channel, customer_identifier, salesConversationDefaultStatus⟩] ∧
        (ingest_message st newName channel customer_identifier user_message).1.queue =
          st.queue ++ [⟨newName, user_message⟩] ∧
        (ingest_message st newName channel customer_identifier user_message).2.conversation_id =
          newName := by
  cases hf : findOngoingName st.conversations channel customer_identifier <;>
    simp [ingest_message, hf]

/-- When the latest parsed message entry was sent by "You", the extraction
step sets the bot flag. -/
theorem extract_bot_flag (c : CommContent) (e : MessageEntry) (sender : String)
    (he : c.entries.getLast? = some e) (hs : e.senderStrong = some sender)
    (hy : pyStrip sender = "You") :
    (extract_latest_message_from_content c).2 = true := by
  simp only [extract_latest_message_from_content, he, hs, hy]
  cases hd : e.contentDiv <;> simp [hd]
  split <;> rfl

/-- When the latest parsed message entry was sent by "You", the hook records
no user message. -/
theorem extractedUserMessage_bot (c : CommContent) (e : MessageEntry) (sender : String)
    (he : c.entries.getLast? = some e) (hs : e.senderStrong = some sender)
    (hy : pyStrip sender = "You") :
    extractedUserMessage (some c) = none := by
  have hb := extract_bot_flag c e sender he hs hy
  simp [extractedUserMessage, hb]

/-- C10: the hook never reaches `ingest_message` for a Communication that is
not marked `Received`, that references a `Sales Conversation` (a bot reply),
or whose latest extracted message entry has sender "You" — a bot-produced
message can never re-trigger the bot. -/
theorem c10_bot_never_reingested (doc : Communication)
    (h : doc.sent_or_received ≠ "Received" ∨
         doc.reference_doctype = "Sales Conversation" ∨
         (∃ c e sender, doc.content = some c ∧ c.entries.getLast? = some e ∧
            e.senderStrong = some sender ∧ pyStrip sender = "You")) :
    process_incoming_communication doc = none := by
  rcases h with h | h | ⟨c, e, sender, hc, he, hs, hy⟩
  · simp [process_incoming_communication, h]
  · unfold process_incoming_communication
    split_ifs <;> rfl
  · have hext := extractedUserMessage_bot c e sender he hs hy
    unfold process_incoming_communication
    split_ifs <;> try rfl
    simp [hc, hext]

/-- C10 witness: a concrete Communication whose latest entry was sent by
"You" is skipped. -/
theorem c10_bot_never_reingested_witness :
    (∃ c e sender, botEchoDoc.content = some c ∧ c.entries.getLast? = some e ∧
        e.senderStrong = some sender ∧ pyStrip sender = "You") ∧
    process_incoming_communication botEchoDoc = none := by
  have hx : ∃ c e sender, botEchoDoc.content = some c ∧ c.entries.getLast? = some e ∧
      e.senderStrong = some sender ∧ pyStrip sender = "You" :=
    ⟨⟨[⟨some "You", some "Hello, how can I help?", "You 10:00 Hello, how can I help?"⟩],
       "Hello, how can I help?"⟩,
     ⟨some "You", some "Hello, how can I help?", "You 10:00 Hello, how can I help?"⟩,
     "You", rfl, rfl, rfl, rfl⟩
  exact ⟨hx, c10_bot_never_reingested botEchoDoc (Or.inr (Or.inr hx))⟩

/-- The direct loop performs at most `fuel` LLM calls. -/
theorem direct_loop_calls_le (llm : List DirectMsg → AssistantTurn)
    (gateway : ToolCallRequest → String) :
    ∀ (fuel : Nat) (conversation : List DirectMsg) (log : List LogStep),
      (direct_loop llm gateway fuel conversation log).2 ≤ fuel := by
  intro fuel
  induction fuel with
  | zero => intro conversation log; simp [direct_loop]
  | succ n ih =>
      intro conversation log
      simp only [direct_loop]
      split
      · simp
      · exact Nat.succ_le_succ (ih _ _)

/-- Against an LLM that requests a tool call on every turn, the loop consumes
its whole budget and halts with the designed circuit-breaker result. -/
theorem direct_loop_patho (llm : List DirectMsg → AssistantTurn)
    (gateway : ToolCallRequest → String)
    (hp : ∀ conversation, (llm conversation).tool_calls.isEmpty = false) :
    ∀ (fuel : Nat) (conversation : List DirectMsg) (log : List LogStep),
      (direct_loop llm gateway fuel conversation log).2 = fuel ∧
      (direct_loop llm gateway fuel conversation log).1.error = true ∧
      (direct_loop llm gateway fuel conversation log).1.final_response =
        turnBudgetExceededMsg := by
  intro fuel
  induction fuel with
  | zero => intro conversation log; simp [direct_loop]
  | succ n ih =>
      intro conversation log
      simp only [direct_loop, hp conversation, Bool.false_eq_true, if_false]
      refine ⟨?_, (ih _ _).2.1, (ih _ _).2.2⟩
      rw [(ih _ _).1]

/-- C2: the multi-turn direct loop performs at most `directMaxTurns` (= 10)
LLM calls per run; when discovery succeeded and the LLM requests a tool call
on every turn, the run halts after exactly `directMaxTurns` calls with
`error = true` and a non-empty explanatory final response, instead of looping
forever. -/
theorem c2_turn_bound (llm : List DirectMsg → AssistantTurn)
    (gateway : ToolCallRequest → String) (tools : List String) (user_query : String) :
    (run_direct_orchestration llm gateway tools user_query).2 ≤ directMaxTurns ∧
    (tools.isEmpty = false →
      (∀ conversation, (llm conversation).tool_calls.isEmpty = false) →
      (run_direct_orchestration llm gateway tools user_query).2 = directMaxTurns ∧
      (run_direct_orchestration llm gateway tools user_query).1.error = true ∧
      (run_direct_orchestration llm gateway tools user_query).1.final_response ≠ "") := by
  constructor
  · unfold run_direct_orchestration
    split
    · simp
    · exact direct_loop_calls_le llm gateway directMaxTurns _ _
  · intro ht hp
    have h := direct_loop_patho llm gateway hp directMaxTurns
      [DirectMsg.system "agent policy", DirectMsg.user user_query]
      [⟨"List Tools", "success", [("tools_found", .nat tools.length)]⟩]
    unfold run_direct_orchestration
    rw [if_neg (by simp [ht])]
    exact ⟨h.1, h.2.1, by rw [h.2.2]; decide⟩

/-- C2 witness: a pathological LLM that always asks for the `ping` tool
exhausts the default budget of 10 turns. -/
theorem c2_turn_bound_witness :
    ((["ping"] : List String).isEmpty = false) ∧
    (∀ conversation, (pathoLlm conversation).tool_calls.isEmpty = false) ∧
    (run_direct_orchestration pathoLlm constGateway ["ping"] "hello").2 = directMaxTurns ∧
    (run_direct_orchestration pathoLlm constGateway ["ping"] "hello").1.error = true := by
  have hp : ∀ conversation, (pathoLlm conversation).tool_calls.isEmpty = false :=
    fun _ => rfl
  have h := (c2_turn_bound pathoLlm constGateway ["ping"] "hello").2 rfl hp
  exact ⟨rfl, hp, h.1, h.2.1⟩
